import Mathlib

/-!
Verification of the Soldered Pomodoro Timer firmware.

This file gives a shallow embedding of the parts of the firmware that the
specification talks about (the files main.py and seven_segment.py), together
with theorems that settle each claim of the specification against the code.

Conventions of the embedding:
  - Python strings are Lean String values; Python lists of characters are
    List Char.
  - Machine integers do not occur (MicroPython integers are unbounded), so
    Python int is Int and nonnegative counters are Nat.
  - MicroPython tick times (time.ticks_ms) are modelled as Nat milliseconds;
    time.ticks_add a b is a + b and time.ticks_diff a b is the signed
    difference, so a comparison ticks_diff(end, now) > 0 is now < end.
    Tick wraparound is not modelled: all runs considered are far shorter
    than the wraparound period.
  - An active-low button read (value() == 0, meaning pressed) is modelled as
    a Bool that is true when the button is pressed.
  - Loops of the source become either structural recursion with an explicit
    fuel argument (always called with enough fuel for the run in question)
    or explicit one-iteration step functions driven by input samples.
-/

set_option maxRecDepth 10000

/-! ## seven_segment.py: class SevenSegmentDisplay

State of one SevenSegmentDisplay instance.  The fields buffer, dotmask and
current_digit are the Python attributes of the same names (lines 102-106).
The fields digit_level, seg_level and dp_level model the output levels of
the digit common pins (lines 83), the seven segment pins (line 82) and the
decimal point pin (line 84); level values are the integers written by
Pin.value calls.
-/
structure SevenSegmentDisplay where
  buffer : List Char
  dotmask : List Bool
  current_digit : Nat
  digit_level : List Nat
  seg_level : List Nat
  dp_level : Nat
  deriving DecidableEq

namespace SevenSegmentDisplay

/-- seven_segment.py line 29: output level that lights a segment. -/
def SEGMENT_ON : Nat := 1

/-- seven_segment.py line 30. -/
def SEGMENT_OFF : Nat := 0

/-- seven_segment.py line 31: digit commons are active low. -/
def DIGIT_ON : Nat := 0

/-- seven_segment.py line 32. -/
def DIGIT_OFF : Nat := 1

/-- The character to segment pattern dictionary self.patterns
(seven_segment.py lines 89-99), order [a,b,c,d,e,f,g]. -/
def patterns (c : Char) : Option (List Nat) :=
  match c with
  | '0' => some [1, 1, 1, 1, 1, 1, 0]
  | '1' => some [0, 1, 1, 0, 0, 0, 0]
  | '2' => some [1, 1, 0, 1, 1, 0, 1]
  | '3' => some [1, 1, 1, 1, 0, 0, 1]
  | '4' => some [0, 1, 1, 0, 0, 1, 1]
  | '5' => some [1, 0, 1, 1, 0, 1, 1]
  | '6' => some [1, 0, 1, 1, 1, 1, 1]
  | '7' => some [1, 1, 1, 0, 0, 0, 0]
  | '8' => some [1, 1, 1, 1, 1, 1, 1]
  | '9' => some [1, 1, 1, 1, 0, 1, 1]
  | '-' => some [0, 0, 0, 0, 0, 0, 1]
  | ' ' => some [0, 0, 0, 0, 0, 0, 0]
  | 'A' => some [1, 1, 1, 0, 1, 1, 1]
  | 'B' => some [0, 0, 1, 1, 1, 1, 1]
  | 'C' => some [1, 0, 0, 1, 1, 1, 0]
  | 'D' => some [0, 1, 1, 1, 1, 0, 1]
  | 'E' => some [1, 0, 0, 1, 1, 1, 1]
  | 'F' => some [1, 0, 0, 0, 1, 1, 1]
  | _ => none

/-- seven_segment.py line 191: self.patterns.get(ch, self.patterns[' ']),
the pattern lookup with the blank pattern as default. -/
def patternFor (c : Char) : List Nat :=
  (patterns c).getD ((patterns ' ').getD [])

/-- The state built by the constructor (seven_segment.py lines 102-125): a
4-digit display with a blank buffer, cleared dot mask, current_digit = 0
and every digit common line driven to DIGIT_OFF (lines 124-125).  The
initial levels of the segment and decimal point pins are not set by the
constructor; they are modelled as SEGMENT_OFF and are irrelevant to every
claim. -/
def init : SevenSegmentDisplay :=
  { buffer := [' ', ' ', ' ', ' ']
    dotmask := [false, false, false, false]
    current_digit := 0
    digit_level := [DIGIT_OFF, DIGIT_OFF, DIGIT_OFF, DIGIT_OFF]
    seg_level := [SEGMENT_OFF, SEGMENT_OFF, SEGMENT_OFF, SEGMENT_OFF,
                  SEGMENT_OFF, SEGMENT_OFF, SEGMENT_OFF]
    dp_level := SEGMENT_OFF }

/-- Method clear (seven_segment.py lines 135-138): blank all four buffer
cells and clear the dot mask. -/
def clear (st : SevenSegmentDisplay) : SevenSegmentDisplay :=
  { st with buffer := [' ', ' ', ' ', ' ']
            dotmask := [false, false, false, false] }

/-- Method write after the str() coercion of its argument
(seven_segment.py lines 149-153): right-pad a short string with blanks,
truncate a long one to 4 characters, and store the character list in the
buffer. -/
def write (text : String) (st : SevenSegmentDisplay) : SevenSegmentDisplay :=
  let t :=
    if text.length < 4 then text ++ String.mk (List.replicate (4 - text.length) ' ')
    else if text.length > 4 then String.mk (text.toList.take 4)
    else text
  { st with buffer := t.toList }

/-- Method write applied to an arbitrary value: line 148 first coerces the
argument with str(), modelled by the ToString instance, then proceeds as
write. -/
def writeAny {α : Type} [ToString α] (x : α) (st : SevenSegmentDisplay) :
    SevenSegmentDisplay :=
  write (toString x) st

/-- Method set_decimal_point (seven_segment.py lines 155-163): a no-op
when position is outside [0, 4). -/
def set_decimal_point (position : Int) (state : Bool) (st : SevenSegmentDisplay) :
    SevenSegmentDisplay :=
  if 0 ≤ position ∧ position < 4 then
    { st with dotmask := st.dotmask.set position.toNat state }
  else st

/-- The first action of the _refresh callback (seven_segment.py lines
184-186): deselect the digit selected by the previous invocation.  The
index (current_digit - 1) % 4 is computed with Python signed modulo, which
Int.emod matches (for current_digit = 0 it yields 3).  This definition is
also the intermediate point of an invocation at which no digit common line
has yet been driven to DIGIT_ON. -/
def refreshDeselect (st : SevenSegmentDisplay) : SevenSegmentDisplay :=
  { st with digit_level :=
      st.digit_level.set (((st.current_digit : Int) - 1) % 4).toNat DIGIT_OFF }

/-- One invocation of the timer callback _refresh (seven_segment.py lines
184-205): deselect the previous digit, drive the segment pins from the
pattern of the buffer character at current_digit (a pattern entry lights
its segment when it is nonzero, line 195), drive the decimal point pin
from the dot mask, select the current digit, and advance current_digit by
one modulo 4. -/
def refresh (st : SevenSegmentDisplay) : SevenSegmentDisplay :=
  let st1 := refreshDeselect st
  let ch := st1.buffer.getD st1.current_digit ' '
  let pattern := patternFor ch
  { st1 with
      seg_level := pattern.map (fun b => if b ≠ 0 then SEGMENT_ON else SEGMENT_OFF)
      dp_level := if st1.dotmask.getD st1.current_digit false then SEGMENT_ON else SEGMENT_OFF
      digit_level := st1.digit_level.set st1.current_digit DIGIT_ON
      current_digit := (st1.current_digit + 1) % 4 }

/-- n consecutive invocations of the refresh callback. -/
def refreshIter (n : Nat) (st : SevenSegmentDisplay) : SevenSegmentDisplay :=
  match n with
  | 0 => st
  | n + 1 => refresh (refreshIter n st)

/-- Number of digit common lines currently driven to the DIGIT_ON level. -/
def digitsOnCount (st : SevenSegmentDisplay) : Nat :=
  st.digit_level.count DIGIT_ON

/-- The digit level list with every line at DIGIT_OFF. -/
def offLevels : List Nat := [DIGIT_OFF, DIGIT_OFF, DIGIT_OFF, DIGIT_OFF]

/-- The states of the display reachable from construction through any
interleaving of refresh invocations and of the public methods called by
the control loop (write, clear, set_decimal_point). -/
inductive Reachable : SevenSegmentDisplay → Prop
  | init : Reachable init
  | refresh {st : SevenSegmentDisplay} : Reachable st → Reachable (refresh st)
  | write {st : SevenSegmentDisplay} (text : String) :
      Reachable st → Reachable (write text st)
  | clear {st : SevenSegmentDisplay} : Reachable st → Reachable (clear st)
  | set_dot {st : SevenSegmentDisplay} (p : Int) (b : Bool) :
      Reachable st → Reachable (set_decimal_point p b st)

/-- Invariant of the digit select lines: current_digit is in [0, 4) and
either no line is at DIGIT_ON or exactly the line selected by the previous
invocation, index (current_digit + 3) % 4, is. -/
def DigitInv (st : SevenSegmentDisplay) : Prop :=
  st.current_digit < 4 ∧
  (st.digit_level = offLevels ∨
    st.digit_level = offLevels.set ((st.current_digit + 3) % 4) DIGIT_ON)

end SevenSegmentDisplay

/-! ## main.py: the countdown loop -/

/-- The Python f-string format {n:02} for a nonnegative integer
(main.py line 108): the decimal representation, left-padded with one zero
when it has a single digit.  The countdown only formats nonnegative
values. -/
def fmt02 (n : Nat) : String :=
  if n < 10 then "0" ++ Nat.repr n else Nat.repr n

/-- The MMSS frame computed by one countdown iteration (main.py lines
105-108): m = seconds // 60, s = seconds % 60, frame = two formatted
fields concatenated. -/
def frameOf (seconds : Nat) : String :=
  fmt02 (seconds / 60) ++ fmt02 (seconds % 60)

/-- Modelled from the words of the specification, for comparison with
frameOf: zero_pad(n, w) pads the decimal representation of n on the left
with zeros to width w. -/
def spec_zero_pad (n w : Nat) : String :=
  String.mk (List.replicate (w - (Nat.repr n).length) '0' ++ (Nat.repr n).toList)

/-- The tick-level behaviour of the countdown function (main.py lines
93-142): while seconds >= 0, the loop body first checks the one-shot
last-minute trigger (lines 100-103: it fires when the last-minute color
argument is provided, seconds equals 60 and color_changed is still false,
and firing sets color_changed), then writes the MMSS frame of the current
seconds value to the display (lines 105-109), and at the end of the body
decrements seconds (line 142).  The intervening button-polling and pause
handling (lines 111-140) neither modifies seconds nor touches
color_changed, so it is factored out (it is modelled separately by
tickEnd and innerStep below); what remains is the per-tick trace.  The
result is the list of frames written, one per tick, paired with a list of
Booleans recording for each tick whether the last-minute LED update
fired on that tick.  The fuel argument bounds the recursion and every use
supplies at least seconds + 1, enough for the whole run. -/
def countdownTicks : Nat → Int → Bool → Bool → List String × List Bool
  | 0, _, _, _ => ([], [])
  | fuel + 1, seconds, hasLastMin, colorChanged =>
    if 0 ≤ seconds then
      let fire := hasLastMin && (seconds == 60) && !colorChanged
      let rest := countdownTicks fuel (seconds - 1) hasLastMin (colorChanged || fire)
      (frameOf seconds.toNat :: rest.1, fire :: rest.2)
    else ([], [])

/-- main.py line 112: end_time = time.ticks_add(time.ticks_ms(), 1000),
the deadline of one countdown tick, computed from the time at which the
tick starts. -/
def tickDeadline (now : Nat) : Nat := now + 1000

/-- The inner polling loop of a countdown tick (main.py line 113):
while time.ticks_diff(end_time, time.ticks_ms()) > 0, run one pass of the
button-polling body.  The time consumed by one pass of the body starting
at time t is abstracted as cost t (it includes, for example, the 300 ms
debounce sleep of line 118 when the confirm button is pressed).  The
result is the time at which the loop exits.  The fuel argument bounds the
number of passes. -/
def pollWait : Nat → Nat → Nat → (Nat → Nat) → Nat
  | 0, _, t, _ => t
  | fuel + 1, deadline, t, cost =>
    if t < deadline then pollWait fuel deadline (t + cost t) cost else t

/-- The time at which a countdown tick that started at time start hands
control back to the outer loop: the exit time of the polling loop against
the deadline tickDeadline start. -/
def tickEnd (start : Nat) (cost : Nat → Nat) (fuel : Nat) : Nat :=
  pollWait fuel (tickDeadline start) start cost

/-- Control location inside the polling part of a countdown tick:
poll is the body of the inner while loop (main.py lines 114-123), paused
is the pause blink loop (lines 126-140), restarted is the absorbing
location entered when line 123 calls main(), which never returns. -/
inductive Ctl
  | poll
  | paused
  | restarted
  deriving DecidableEq

/-- Observable action of one polling step: a display.write of a frame
(line 136), a display.clear (line 138), or the re-entry of main
(line 123). -/
inductive Ev
  | displayWrite (s : String)
  | displayClear
  | restartMain
  deriving DecidableEq

/-- State of the polling part of a countdown tick: the control location,
the paused_flag cell shared with the caller (main.py line 196), the
current remaining seconds of the countdown (which this part of the code
never modifies) and the last computed frame (line 108). -/
structure InnerState where
  ctl : Ctl
  pausedFlag : Bool
  seconds : Int
  frame : String
  deriving DecidableEq

/-- One step of the polling part of a countdown tick, driven by the
current time and by a sample of the two buttons read in that step.

At location poll (main.py lines 114-123): a pressed confirm button
toggles paused_flag after a 300 ms sleep (lines 117-119); a pressed reset
button calls main() (lines 121-123), which restarts the whole program and
never returns; otherwise, when paused_flag is set, control enters the
pause blink loop.

At location paused (main.py lines 126-140): the loop first exits if
paused_flag is clear; otherwise it samples the time, computes
blink_on = (now // 500) % 2 == 0, and a pressed confirm button clears
paused_flag and breaks (lines 130-133, rendering nothing on that pass);
otherwise it renders the last frame when blink_on and a blank display
otherwise (lines 135-138).  The reset button is not read anywhere in this
loop. -/
def innerStep (st : InnerState) (now : Nat) (confirmPressed resetPressed : Bool) :
    InnerState × List Ev :=
  match st.ctl with
  | Ctl.restarted => (st, [])
  | Ctl.poll =>
    let pf := if confirmPressed then !st.pausedFlag else st.pausedFlag
    if resetPressed then ({ st with ctl := Ctl.restarted, pausedFlag := pf }, [Ev.restartMain])
    else if pf then ({ st with ctl := Ctl.paused, pausedFlag := pf }, [])
    else ({ st with pausedFlag := pf }, [])
  | Ctl.paused =>
    if st.pausedFlag then
      if confirmPressed then ({ st with ctl := Ctl.poll, pausedFlag := false }, [])
      else if (now / 500) % 2 = 0 then (st, [Ev.displayWrite st.frame])
      else (st, [Ev.displayClear])
    else ({ st with ctl := Ctl.poll }, [])

/-! ## main.py: the configuration phase set_times -/

/-- State of the set_times loop (main.py lines 145-151): the two minute
settings, the index of the field being edited, and the single shared
timestamp last of the most recently accepted button edge. -/
structure SetTimesState where
  study : Int
  rest : Int
  idx : Nat
  last : Nat
  deriving DecidableEq

/-- main.py line 150: debounce time in ms. -/
def debounce : Nat := 500

/-- The state at entry of the set_times loop (main.py lines 146-151):
study 25, rest 5, idx 0, last initialized to the current time t0. -/
def setTimesInit (t0 : Nat) : SetTimesState :=
  { study := 25, rest := 5, idx := 0, last := t0 }

/-- The button handling of one pass of the set_times loop (main.py lines
167-179), sampled at time now with the three button states of that pass.
Each of the three checks is performed in order and compares now against
the current value of the single shared last timestamp with
time.ticks_diff(now, last) > debounce; an accepted edge mutates its
setting (stepping by 5 and clamping to [0, 95], or advancing idx) and
sets last = now.  The display and blink statements of the loop (lines
154-164) touch none of this state and are omitted. -/
def setTimesStep (st : SetTimesState) (now : Nat)
    (upPressed downPressed confirmPressed : Bool) : SetTimesState :=
  let st1 :=
    if upPressed ∧ (debounce : Int) < (now : Int) - (st.last : Int) then
      if st.idx = 0 then { st with study := min (st.study + 5) 95, last := now }
      else { st with rest := min (st.rest + 5) 95, last := now }
    else st
  let st2 :=
    if downPressed ∧ (debounce : Int) < (now : Int) - (st1.last : Int) then
      if st1.idx = 0 then { st1 with study := max (st1.study - 5) 0, last := now }
      else { st1 with rest := max (st1.rest - 5) 0, last := now }
    else st1
  if confirmPressed ∧ (debounce : Int) < (now : Int) - (st2.last : Int) then
    { st2 with idx := st2.idx + 1, last := now }
  else st2

/-! ## Helper lemmas -/

namespace SevenSegmentDisplay

theorem refresh_current_digit (st : SevenSegmentDisplay) :
    (refresh st).current_digit = (st.current_digit + 1) % 4 := rfl

theorem refresh_digit_level (st : SevenSegmentDisplay) :
    (refresh st).digit_level =
      (st.digit_level.set (((st.current_digit : Int) - 1) % 4).toNat DIGIT_OFF).set
        st.current_digit DIGIT_ON := rfl

theorem int_prev_digit : ∀ c : Nat, c < 4 →
    (((c : Int) - 1) % 4).toNat = (c + 3) % 4 := by decide

theorem succ_prev_digit : ∀ c : Nat, c < 4 → ((c + 1) % 4 + 3) % 4 = c := by decide

theorem offLevels_set_off : ∀ p, p < 4 → offLevels.set p DIGIT_OFF = offLevels := by decide

theorem onAt_set_off : ∀ p, p < 4 →
    (offLevels.set p DIGIT_ON).set p DIGIT_OFF = offLevels := by decide

theorem offLevels_count : offLevels.count DIGIT_ON = 0 := by decide

theorem onAt_count : ∀ p, p < 4 →
    (offLevels.set p DIGIT_ON).count DIGIT_ON = 1 := by decide

theorem filter_mod_count : ∀ c, c < 4 → ∀ d, d < 4 →
    ((List.range 4).filter (fun k => (c + k) % 4 == d)).length = 1 := by decide

theorem reachable_digitInv {st : SevenSegmentDisplay} (h : Reachable st) :
    DigitInv st := by
  induction h with
  | init => exact ⟨by decide, Or.inl rfl⟩
  | @refresh s _ ih =>
    obtain ⟨hcd, hdl⟩ := ih
    have hprev := int_prev_digit s.current_digit hcd
    have hmod : (s.current_digit + 3) % 4 < 4 := Nat.mod_lt _ (by norm_num)
    have hset : s.digit_level.set (((s.current_digit : Int) - 1) % 4).toNat DIGIT_OFF
        = offLevels := by
      rw [hprev]
      rcases hdl with h1 | h1
      · rw [h1]; exact offLevels_set_off _ hmod
      · rw [h1]; exact onAt_set_off _ hmod
    refine ⟨by rw [refresh_current_digit]; exact Nat.mod_lt _ (by norm_num), Or.inr ?_⟩
    rw [refresh_digit_level, refresh_current_digit, hset, succ_prev_digit _ hcd]
  | @write s text _ ih => exact ih
  | @clear s _ ih => exact ih
  | @set_dot s p b _ ih =>
    obtain ⟨hcd, hdl⟩ := ih
    unfold set_decimal_point
    split <;> exact ⟨hcd, hdl⟩

theorem reachable_refreshIter {st : SevenSegmentDisplay} (h : Reachable st) (k : Nat) :
    Reachable (refreshIter k st) := by
  induction k with
  | zero => exact h
  | succ n ih => exact Reachable.refresh ih

theorem refreshIter_current_digit {st : SevenSegmentDisplay} (h : Reachable st) :
    ∀ k, (refreshIter k st).current_digit = (st.current_digit + k) % 4 := by
  intro k
  induction k with
  | zero =>
    have hcd := (reachable_digitInv h).1
    simpa [refreshIter] using (Nat.mod_eq_of_lt hcd).symm
  | succ n ih =>
    show (refresh (refreshIter n st)).current_digit = _
    rw [refresh_current_digit, ih]
    omega

theorem digitInv_onCount {st : SevenSegmentDisplay} (h : DigitInv st) :
    digitsOnCount st ≤ 1 ∧ digitsOnCount (refreshDeselect st) ≤ 1 := by
  obtain ⟨hcd, hdl⟩ := h
  have hprev := int_prev_digit st.current_digit hcd
  have hmod : (st.current_digit + 3) % 4 < 4 := Nat.mod_lt _ (by norm_num)
  constructor
  · rcases hdl with h1 | h1 <;> rw [digitsOnCount, h1]
    · rw [offLevels_count]; omega
    · rw [onAt_count _ hmod]
  · have : (refreshDeselect st).digit_level
        = st.digit_level.set (((st.current_digit : Int) - 1) % 4).toNat DIGIT_OFF := rfl
    rw [digitsOnCount, this, hprev]
    rcases hdl with h1 | h1 <;> rw [h1]
    · rw [offLevels_set_off _ hmod, offLevels_count]; omega
    · rw [onAt_set_off _ hmod, offLevels_count]; omega

theorem write_buffer (text : String) (st : SevenSegmentDisplay) :
    (write text st).buffer = text.toList.take 4 ++ List.replicate (4 - text.length) ' ' := by
  have hlen : text.toList.length = text.length := rfl
  unfold write
  by_cases h1 : text.length < 4
  · simp only [if_pos h1]
    have h2 : (text ++ String.mk (List.replicate (4 - text.length) ' ')).toList
        = text.toList ++ List.replicate (4 - text.length) ' ' := rfl
    rw [h2, List.take_of_length_le (by omega)]
  · by_cases h2 : text.length > 4
    · simp only [if_neg h1, if_pos h2]
      have h3 : 4 - text.length = 0 := by omega
      rw [h3, List.replicate, List.append_nil]
      rfl
    · simp only [if_neg h1, if_neg h2]
      have h3 : 4 - text.length = 0 := by omega
      rw [h3, List.replicate, List.append_nil, List.take_of_length_le (by omega)]

theorem write_buffer_length (text : String) (st : SevenSegmentDisplay) :
    (write text st).buffer.length = 4 := by
  have hlen : text.toList.length = text.length := rfl
  rw [write_buffer]
  simp only [List.length_append, List.length_take, List.length_replicate, hlen]
  omega

end SevenSegmentDisplay

theorem countdownTicks_nil (fuel : Nat) (s : Int) (hl cc : Bool) (h : s < 0) :
    countdownTicks fuel s hl cc = ([], []) := by
  cases fuel with
  | zero => rfl
  | succ n => simp only [countdownTicks, if_neg (by omega : ¬ (0 : Int) ≤ s)]

theorem countdownTicks_length (fuel : Nat) :
    ∀ (s : Int) (hl cc : Bool), 0 ≤ s → s < fuel →
      (countdownTicks fuel s hl cc).1.length = s.toNat + 1 := by
  induction fuel with
  | zero => intro s hl cc h0 h1; omega
  | succ n ih =>
    intro s hl cc h0 h1
    simp only [countdownTicks, if_pos h0]
    by_cases hz : s = 0
    · subst hz
      rw [countdownTicks_nil n (0 - 1) hl _ (by omega)]
      rfl
    · have h2 : (0 : Int) ≤ s - 1 := by omega
      have h3 : s - 1 < n := by omega
      simp only [List.length_cons, ih (s - 1) hl _ h2 h3]
      omega

theorem countdownTicks_leds_done (fuel : Nat) :
    ∀ (s : Int), 0 ≤ s → s < fuel →
      (countdownTicks fuel s true true).2 = List.replicate (s.toNat + 1) false := by
  induction fuel with
  | zero => intro s h0 h1; omega
  | succ n ih =>
    intro s h0 h1
    simp only [countdownTicks, if_pos h0, Bool.and_false, Bool.not_true, Bool.or_false,
      Bool.and_true]
    by_cases hz : s = 0
    · subst hz
      rw [countdownTicks_nil n (0 - 1) true _ (by omega)]
      rfl
    · rw [ih (s - 1) (by omega) (by omega)]
      have h4 : s.toNat + 1 = (s - 1).toNat + 1 + 1 := by omega
      rw [h4]
      simp [List.replicate_succ]

theorem countdownTicks_leds_low (fuel : Nat) :
    ∀ (s : Int) (cc : Bool), 0 ≤ s → s < 60 → s < fuel →
      (countdownTicks fuel s true cc).2 = List.replicate (s.toNat + 1) false := by
  induction fuel with
  | zero => intro s cc h0 h1 h2; omega
  | succ n ih =>
    intro s cc h0 h1 h2
    have hbeq : (s == 60) = false := by
      simp only [beq_eq_false_iff_ne]; omega
    simp only [countdownTicks, if_pos h0, hbeq, Bool.and_false, Bool.false_and,
      Bool.true_and, Bool.or_false]
    by_cases hz : s = 0
    · subst hz
      rw [countdownTicks_nil n (0 - 1) true _ (by omega)]
      rfl
    · rw [ih (s - 1) cc (by omega) (by omega) (by omega)]
      have h4 : s.toNat + 1 = (s - 1).toNat + 1 + 1 := by omega
      rw [h4]
      simp [List.replicate_succ]

theorem countdownTicks_leds_main (fuel : Nat) :
    ∀ (s : Int), 60 ≤ s → s < fuel →
      (countdownTicks fuel s true false).2
        = List.replicate (s.toNat - 60) false ++ true :: List.replicate 60 false := by
  induction fuel with
  | zero => intro s h0 h1; omega
  | succ n ih =>
    intro s h0 h1
    by_cases hz : s = 60
    · subst hz
      have h60 : ((60 : Int) == 60) = true := by decide
      simp only [countdownTicks, if_pos (by omega : (0 : Int) ≤ (60 : Int)), h60,
        Bool.and_true, Bool.true_and, Bool.not_false, Bool.or_true]
      have h59 : (60 : Int) - 1 = 59 := by norm_num
      rw [h59, countdownTicks_leds_done n 59 (by omega) (by omega)]
      decide
    · have hbeq : (s == 60) = false := by
        simp only [beq_eq_false_iff_ne]; omega
      simp only [countdownTicks, if_pos (by omega : (0 : Int) ≤ s), hbeq, Bool.and_false,
        Bool.false_and, Bool.true_and, Bool.or_false, Bool.not_false]
      rw [ih (s - 1) (by omega) (by omega)]
      have h4 : s.toNat - 60 = (s - 1).toNat - 60 + 1 := by omega
      rw [h4]
      simp [List.replicate_succ]

theorem pollWait_ge (fuel : Nat) :
    ∀ (deadline t : Nat) (cost : Nat → Nat), (∀ u, 1 ≤ cost u) →
      deadline ≤ t + fuel → deadline ≤ pollWait fuel deadline t cost := by
  induction fuel with
  | zero => intro d t c hc h; simpa [pollWait] using h
  | succ n ih =>
    intro d t c hc h
    by_cases hlt : t < d
    · simp only [pollWait, if_pos hlt]
      exact ih d (t + c t) c hc (by have := hc t; omega)
    · simp only [pollWait, if_neg hlt]; omega

theorem fmt02_spec : ∀ n, n < 100 →
    fmt02 n = spec_zero_pad n 2 ∧ (fmt02 n).length = 2 := by decide

/-! ## Claims -/

/-- C1, counterexample.  The claim states that the next tick deadline
equals the previous tick deadline plus 1000 ms and is not recomputed from
the current time after polling.  In the code (main.py line 112) the
deadline of every tick is end_time = ticks_ms() + 1000, recomputed from
the current time at the start of the tick.  With a polling body that
costs 300 ms per pass (for instance a pressed confirm button, whose
debounce sleep at line 118 takes 300 ms), a tick starting at time 0 has
deadline 1000 but the polling loop only exits at time 1200, so the next
deadline is 2200, not 1000 + 1000 = 2000: the overshoot is carried into
every later tick and drift accumulates. -/
theorem tick_deadline_recomputed_counterexample :
    tickEnd 0 (fun _ => 300) 10 = 1200 ∧
    tickDeadline (tickEnd 0 (fun _ => 300) 10) = 2200 ∧
    tickDeadline (tickEnd 0 (fun _ => 300) 10) ≠ tickDeadline 0 + 1000 := by
  refine ⟨by decide, by decide, by decide⟩

/-- C1, amended.  Each countdown tick computes its deadline once, at the
start of the tick, as current time + 1000 ms (main.py line 112); the
deadline is therefore fixed for the whole tick no matter how much time
button polling consumes, and the tick does not end before the deadline
(first conjunct, given that each polling pass takes at least 1 ms and the
loop is given enough passes).  But the next deadline is recomputed from
the time at which the polling loop actually exited (second conjunct), so
overshoot past a deadline shifts all later deadlines and drift can
accumulate across ticks. -/
theorem tick_deadline_within_tick_fixed :
    ∀ (start fuel : Nat) (cost : Nat → Nat), (∀ u, 1 ≤ cost u) → 1000 ≤ fuel →
      tickDeadline start ≤ tickEnd start cost fuel ∧
      tickDeadline (tickEnd start cost fuel) = tickEnd start cost fuel + 1000 := by
  intro start fuel cost hc hf
  refine ⟨pollWait_ge fuel (tickDeadline start) start cost hc ?_, rfl⟩
  unfold tickDeadline
  omega

/-- C1, witness for the amended theorem at a concrete cost function. -/
theorem tick_deadline_within_tick_fixed_witness :
    tickDeadline 0 ≤ tickEnd 0 (fun _ => 1) 1000 ∧
    tickDeadline (tickEnd 0 (fun _ => 1) 1000) = tickEnd 0 (fun _ => 1) 1000 + 1000 :=
  tick_deadline_within_tick_fixed 0 1000 (fun _ => 1) (fun _ => le_refl 1) (le_refl 1000)

/-- C2, counterexample.  The claim states that from every reachable state
of a running countdown phase, including the PAUSED blink loop, a reset
button edge aborts the phase and restarts the timer.  The pause blink
loop (main.py lines 126-140) polls only the confirm button and never
reads the reset button: from the running poll location a confirm press
reaches the paused state (first conjunct), and in that state a pressed
reset button leaves the state unchanged and produces no restart
(remaining conjuncts). -/
theorem reset_ignored_while_paused :
    (innerStep ⟨Ctl.poll, false, 125, "0205"⟩ 0 true false).1
      = ⟨Ctl.paused, true, 125, "0205"⟩ ∧
    (innerStep ⟨Ctl.paused, true, 125, "0205"⟩ 700 false true).1
      = ⟨Ctl.paused, true, 125, "0205"⟩ ∧
    Ev.restartMain ∉ (innerStep ⟨Ctl.paused, true, 125, "0205"⟩ 700 false true).2 := by
  refine ⟨by decide, by decide, by decide⟩

/-- C2, amended.  In the running poll loop of a countdown phase a pressed
reset button unconditionally restarts the whole timer from its initial
configuration step by re-entering main (main.py lines 121-123), modelled
by the absorbing restarted location and the restartMain event; this holds
whatever the paused flag and the confirm sample of that pass.  In the
PAUSED blink loop, however, the reset button is not polled at all: the
step from the paused location is independent of the reset input, so a
reset press there has no effect until the countdown is resumed. -/
theorem reset_restarts_from_poll :
    ∀ (st : InnerState) (now : Nat) (c : Bool),
      (st.ctl = Ctl.poll →
        (innerStep st now c true).1.ctl = Ctl.restarted ∧
        (innerStep st now c true).2 = [Ev.restartMain]) ∧
      (st.ctl = Ctl.paused → ∀ r : Bool, innerStep st now c r = innerStep st now c false) := by
  intro st now c
  constructor
  · intro h
    simp [innerStep, h]
  · intro h r
    cases r <;> simp [innerStep, h]

/-- C2, witness for the amended theorem at concrete states. -/
theorem reset_restarts_from_poll_witness :
    (innerStep ⟨Ctl.poll, false, 10, "0010"⟩ 5 false true).1.ctl = Ctl.restarted ∧
    (innerStep ⟨Ctl.poll, false, 10, "0010"⟩ 5 false true).2 = [Ev.restartMain] ∧
    innerStep ⟨Ctl.paused, true, 10, "0010"⟩ 5 false true
      = innerStep ⟨Ctl.paused, true, 10, "0010"⟩ 5 false false := by
  obtain ⟨h1, _⟩ := reset_restarts_from_poll ⟨Ctl.poll, false, 10, "0010"⟩ 5 false
  obtain ⟨_, h4⟩ := reset_restarts_from_poll ⟨Ctl.paused, true, 10, "0010"⟩ 5 false
  exact ⟨(h1 rfl).1, (h1 rfl).2, h4 rfl true⟩

/-- C3, counterexample.  The claim states that a phase started with
remaining_seconds = 125 reaches DONE after 125 ticks and that a duration
of zero produces an immediate DONE.  In the code the loop runs while
seconds >= 0 (main.py line 99), so the run of duration 125 still displays
the frame 0000 on its 126th iteration (tick index 125) and only then
passes below zero: it produces 126 frames, and a phase of duration zero
produces one frame rather than zero. -/
theorem countdown_not_done_at_125 :
    (countdownTicks 126 125 true false).1.get? 125 = some "0000" ∧
    (countdownTicks 126 125 true false).1.length = 126 ∧
    (countdownTicks 1 0 true false).1.length = 1 := by
  refine ⟨by decide, by decide, by decide⟩

/-- C3, amended.  A countdown phase ends exactly when remaining_seconds
passes below zero, which is after duration + 1 ticks (one displayed frame
per value from duration down to 0): for every duration d the run produces
d + 1 frames; the run of duration 125 shows first frame 0205, shows 0100
after 65 ticks, still shows 0000 at tick 125, and is DONE after 126
ticks; a phase configured with duration zero displays the single frame
0000 for one tick and is then DONE. -/
theorem countdown_tick_counts :
    (∀ d : Nat, (countdownTicks (d + 1) (d : Int) true false).1.length = d + 1) ∧
    (countdownTicks 126 125 true false).1.get? 0 = some "0205" ∧
    (countdownTicks 126 125 true false).1.get? 65 = some "0100" ∧
    (countdownTicks 126 125 true false).1.get? 125 = some "0000" ∧
    (countdownTicks 1 0 true false).1 = ["0000"] := by
  refine ⟨?_, by decide, by decide, by decide, by decide⟩
  intro d
  have h := countdownTicks_length (d + 1) (d : Int) true false (by omega) (by omega)
  simpa using h

/-- C4.  In a countdown phase of duration d >= 60 whose last-minute color
is provided, the last-minute LED update fires exactly once, on the tick
where remaining_seconds first (and only) equals 60, which is tick index
d - 60: the per-tick trace of the fire flag is false everywhere except at
that single position.  The guard color_changed (main.py lines 97-103)
prevents any later re-trigger, and a pause/resume cannot re-trigger it
either since the check is evaluated once per tick, before the polling
loop, and the pause loop touches neither seconds nor color_changed. -/
theorem last_minute_fires_exactly_once :
    ∀ d : Nat, 60 ≤ d →
      (countdownTicks (d + 1) (d : Int) true false).2
        = List.replicate (d - 60) false ++ true :: List.replicate 60 false := by
  intro d hd
  have h := countdownTicks_leds_main (d + 1) (d : Int) (by omega) (by omega)
  simpa using h

/-- C4, witness at duration 65: the trigger fires exactly on tick 5. -/
theorem last_minute_fires_exactly_once_witness :
    (countdownTicks 66 (65 : Int) true false).2
      = List.replicate 5 false ++ true :: List.replicate 60 false := by
  have h := last_minute_fires_exactly_once 65 (by norm_num)
  simpa using h

/-- C5.  For every display state reachable from construction through any
interleaving of refresh invocations and control-loop writes: current_digit
is in [0, 4); invocation k of the refresh callback selects digit
(current_digit + k) % 4, so each invocation advances current_digit by
exactly one, wrapping modulo 4; over any 4 consecutive invocations each
digit is selected exactly once; and at no point, neither at invocation
boundaries nor at the intermediate point just after the previous digit is
deselected (refreshDeselect), are two digit common lines at the DIGIT_ON
level simultaneously. -/
theorem refresh_cycle_digit_selection :
    ∀ st : SevenSegmentDisplay, SevenSegmentDisplay.Reachable st →
      st.current_digit < 4 ∧
      (∀ k, (SevenSegmentDisplay.refreshIter k st).current_digit
          = (st.current_digit + k) % 4) ∧
      (∀ d, d < 4 → ((List.range 4).filter
          (fun k => (SevenSegmentDisplay.refreshIter k st).current_digit == d)).length = 1) ∧
      (∀ k, SevenSegmentDisplay.digitsOnCount (SevenSegmentDisplay.refreshIter k st) ≤ 1 ∧
        SevenSegmentDisplay.digitsOnCount
          (SevenSegmentDisplay.refreshDeselect (SevenSegmentDisplay.refreshIter k st)) ≤ 1) := by
  intro st h
  have inv := SevenSegmentDisplay.reachable_digitInv h
  refine ⟨inv.1, SevenSegmentDisplay.refreshIter_current_digit h, ?_, ?_⟩
  · intro d hd
    simp only [SevenSegmentDisplay.refreshIter_current_digit h]
    exact SevenSegmentDisplay.filter_mod_count st.current_digit inv.1 d hd
  · intro k
    exact SevenSegmentDisplay.digitInv_onCount
      (SevenSegmentDisplay.reachable_digitInv (SevenSegmentDisplay.reachable_refreshIter h k))

/-- C5, witness at the freshly constructed display. -/
theorem refresh_cycle_digit_selection_witness :
    SevenSegmentDisplay.init.current_digit < 4 ∧
    (SevenSegmentDisplay.refreshIter 1 SevenSegmentDisplay.init).current_digit
        = (SevenSegmentDisplay.init.current_digit + 1) % 4 ∧
    ((List.range 4).filter
        (fun k => (SevenSegmentDisplay.refreshIter k SevenSegmentDisplay.init).current_digit
          == 2)).length = 1 ∧
    SevenSegmentDisplay.digitsOnCount (SevenSegmentDisplay.refreshIter 3 SevenSegmentDisplay.init)
      ≤ 1 := by
  obtain ⟨h1, h2, h3, h4⟩ :=
    refresh_cycle_digit_selection SevenSegmentDisplay.init SevenSegmentDisplay.Reachable.init
  exact ⟨h1, h2 1, h3 2 (by norm_num), (h4 3).1⟩

/-- C6.  For every remaining_seconds in [0, 5999] the frame computed by
the countdown (main.py lines 105-108) equals the two-digit zero-padded
quotient by 60 followed by the two-digit zero-padded remainder, and is
exactly 4 characters long. -/
theorem frame_is_zero_padded_mmss :
    ∀ sec : Nat, sec ≤ 5999 →
      frameOf sec = spec_zero_pad (sec / 60) 2 ++ spec_zero_pad (sec % 60) 2 ∧
      (frameOf sec).length = 4 := by
  intro sec h
  have hm : sec / 60 < 100 := by omega
  have hs : sec % 60 < 100 := by omega
  obtain ⟨e1, l1⟩ := fmt02_spec (sec / 60) hm
  obtain ⟨e2, l2⟩ := fmt02_spec (sec % 60) hs
  constructor
  · rw [frameOf, e1, e2]
  · rw [frameOf, String.length_append, l1, l2]

/-- C6, witness at 125 seconds. -/
theorem frame_is_zero_padded_mmss_witness :
    frameOf 125 = spec_zero_pad (125 / 60) 2 ++ spec_zero_pad (125 % 60) 2 ∧
    (frameOf 125).length = 4 :=
  frame_is_zero_padded_mmss 125 (by norm_num)

/-- C7, counterexample.  The claim states that set_times debounces the
three buttons independently, with per-button last-edge state.  The code
keeps a single shared timestamp last (main.py line 151) for all three
buttons: after an accepted up edge at time 600, a first-ever confirm
press at time 800 is rejected (idx stays 0, first conjunct) even though
under per-button state its own last edge time, the loop start 0, would
have accepted it, as the second conjunct shows for the same confirm press
without the preceding up edge. -/
theorem set_times_shared_debounce_counterexample :
    (setTimesStep (setTimesStep (setTimesInit 0) 600 true false false)
        800 false false true).idx = 0 ∧
    (setTimesStep (setTimesInit 0) 800 false false true).idx = 1 := by
  refine ⟨by decide, by decide⟩

/-- C7, amended.  Debouncing in set_times uses one shared last-edge
timestamp for all three buttons, not per-button state: a press edge on
any button is accepted only if now - last exceeds the 500 ms window, and
accepting an edge sets last to now (first conjunct, shown for confirm);
when the window has not elapsed, no button press has any effect (second
conjunct); consequently two edges on the same button separated by less
than the window collapse into one accepted event (third conjunct, shown
for up with idx = 0), while two separated by more than the window are
both accepted provided no other accepted edge intervened (fourth
conjunct). -/
theorem set_times_debounce_behavior :
    ∀ (st : SetTimesState) (now t1 t2 : Nat),
      ((debounce : Int) < (now : Int) - (st.last : Int) →
        (setTimesStep st now false false true).idx = st.idx + 1 ∧
        (setTimesStep st now false false true).last = now) ∧
      (¬ (debounce : Int) < (now : Int) - (st.last : Int) →
        ∀ u dn c : Bool, setTimesStep st now u dn c = st) ∧
      (st.idx = 0 → (debounce : Int) < (t1 : Int) - (st.last : Int) →
        (t2 : Int) - (t1 : Int) ≤ debounce →
        (setTimesStep (setTimesStep st t1 true false false) t2 true false false).study
          = min (st.study + 5) 95) ∧
      (st.idx = 0 → (debounce : Int) < (t1 : Int) - (st.last : Int) →
        (debounce : Int) < (t2 : Int) - (t1 : Int) →
        (setTimesStep (setTimesStep st t1 true false false) t2 true false false).study
          = min (min (st.study + 5) 95 + 5) 95) := by
  intro st now t1 t2
  refine ⟨?_, ?_, ?_, ?_⟩
  · intro h
    simp [setTimesStep, h]
  · intro h u dn c
    simp [setTimesStep, h]
  · intro h0 h1 h2
    have e1 : setTimesStep st t1 true false false
        = { st with study := min (st.study + 5) 95, last := t1 } := by
      simp [setTimesStep, h0, h1]
    have h3 : ¬ (debounce : Int) < (t2 : Int) - (t1 : Int) := by omega
    rw [e1]
    simp [setTimesStep, h3]
  · intro h0 h1 h2
    have e1 : setTimesStep st t1 true false false
        = { st with study := min (st.study + 5) 95, last := t1 } := by
      simp [setTimesStep, h0, h1]
    rw [e1]
    simp [setTimesStep, h0, h2]

/-- C7, witness for the amended theorem at concrete times. -/
theorem set_times_debounce_behavior_witness :
    (setTimesStep (setTimesInit 0) 600 false false true).idx = 1 ∧
    setTimesStep (setTimesInit 0) 300 true false false = setTimesInit 0 ∧
    (setTimesStep (setTimesStep (setTimesInit 0) 600 true false false)
        700 true false false).study = 30 ∧
    (setTimesStep (setTimesStep (setTimesInit 0) 600 true false false)
        1200 true false false).study = 35 := by
  obtain ⟨ha, _, hc, _⟩ := set_times_debounce_behavior (setTimesInit 0) 600 600 700
  obtain ⟨_, _, _, hd⟩ := set_times_debounce_behavior (setTimesInit 0) 600 600 1200
  obtain ⟨_, hb, _, _⟩ := set_times_debounce_behavior (setTimesInit 0) 300 600 700
  refine ⟨(ha (by norm_num [setTimesInit, debounce])).1,
    hb (by norm_num [setTimesInit, debounce]) true false false, ?_, ?_⟩
  · have := hc rfl (by norm_num [setTimesInit, debounce]) (by norm_num [debounce])
    simpa [setTimesInit] using this
  · have := hd rfl (by norm_num [setTimesInit, debounce]) (by norm_num [debounce])
    simpa [setTimesInit] using this

/-- C8.  While the countdown is paused (location paused with the paused
flag set), a polling pass with the confirm button up renders exactly one
display action, the last computed frame when
blink_on = (now / 500) % 2 == 0 and a cleared (all-blank) display
otherwise, stays paused and leaves remaining_seconds untouched; a polling
pass with the confirm button down returns to the running poll loop with
the paused flag cleared and remaining_seconds exactly as it was when the
pause began; and display.clear indeed yields the all-blank frame. -/
theorem paused_blink_poll_resume :
    ∀ (st : InnerState) (now : Nat) (r : Bool),
      st.ctl = Ctl.paused → st.pausedFlag = true →
      (innerStep st now false r).2 =
          [if (now / 500) % 2 = 0 then Ev.displayWrite st.frame else Ev.displayClear] ∧
      (innerStep st now false r).1.ctl = Ctl.paused ∧
      (innerStep st now false r).1.seconds = st.seconds ∧
      (innerStep st now true r).1.ctl = Ctl.poll ∧
      (innerStep st now true r).1.pausedFlag = false ∧
      (innerStep st now true r).1.seconds = st.seconds ∧
      (∀ d : SevenSegmentDisplay, (SevenSegmentDisplay.clear d).buffer = [' ', ' ', ' ', ' ']) := by
  intro st now r hctl hpf
  by_cases hb : (now / 500) % 2 = 0 <;>
    simp [innerStep, hctl, hpf, hb, SevenSegmentDisplay.clear]

/-- C8, witness: a paused state at 60 remaining seconds renders the frame
at time 250 (blink on), clears at time 777 (blink off), and resumes on a
confirm press with seconds unchanged. -/
theorem paused_blink_poll_resume_witness :
    (innerStep ⟨Ctl.paused, true, 60, "0100"⟩ 250 false false).2 = [Ev.displayWrite "0100"] ∧
    (innerStep ⟨Ctl.paused, true, 60, "0100"⟩ 777 false false).2 = [Ev.displayClear] ∧
    (innerStep ⟨Ctl.paused, true, 60, "0100"⟩ 250 true false).1.ctl = Ctl.poll ∧
    (innerStep ⟨Ctl.paused, true, 60, "0100"⟩ 250 true false).1.seconds = 60 ∧
    (SevenSegmentDisplay.clear SevenSegmentDisplay.init).buffer = [' ', ' ', ' ', ' '] := by
  obtain ⟨a1, a2, a3, a4, a5, a6, a7⟩ :=
    paused_blink_poll_resume ⟨Ctl.paused, true, 60, "0100"⟩ 250 false rfl rfl
  obtain ⟨b1, _, _, _, _, _, _⟩ :=
    paused_blink_poll_resume ⟨Ctl.paused, true, 60, "0100"⟩ 777 false rfl rfl
  refine ⟨?_, ?_, a4, a6, a7 SevenSegmentDisplay.init⟩
  · simpa using a1
  · simpa using b1

/-- C9.  DisplayBuffer write on the 4-digit buffer copies characters into
the cells left-to-right, right-padding with blanks when the text is
shorter than 4 and truncating to the first 4 characters when longer; in
particular writing 1 yields cells 1 and three blanks, and writing 12345
yields the cells 1 2 3 4. -/
theorem write_pads_or_truncates :
    (∀ (text : String) (st : SevenSegmentDisplay),
        (SevenSegmentDisplay.write text st).buffer
          = text.toList.take 4 ++ List.replicate (4 - text.length) ' ') ∧
    (SevenSegmentDisplay.write "1" SevenSegmentDisplay.init).buffer = ['1', ' ', ' ', ' '] ∧
    (SevenSegmentDisplay.write "12345" SevenSegmentDisplay.init).buffer
      = ['1', '2', '3', '4'] := by
  refine ⟨SevenSegmentDisplay.write_buffer, by decide, by decide⟩

/-- C10.  SevenSegmentDisplay.write first coerces its argument with str()
and never fails: for every value of every type with a string coercion,
after the call the cell buffer has exactly 4 entries and the decimal
point mask is unchanged; in particular write(7) yields the cells 7 and
three blanks with the previous dot mask intact. -/
theorem write_total_preserves_dotmask :
    (∀ (α : Type) [ToString α] (x : α) (st : SevenSegmentDisplay),
        (SevenSegmentDisplay.writeAny x st).buffer.length = 4 ∧
        (SevenSegmentDisplay.writeAny x st).dotmask = st.dotmask) ∧
    (SevenSegmentDisplay.writeAny (7 : Nat)
        { SevenSegmentDisplay.init with dotmask := [true, false, true, false] }).buffer
      = ['7', ' ', ' ', ' '] ∧
    (SevenSegmentDisplay.writeAny (7 : Nat)
        { SevenSegmentDisplay.init with dotmask := [true, false, true, false] }).dotmask
      = [true, false, true, false] := by
  refine ⟨?_, by decide, by decide⟩
  intro α _ x st
  exact ⟨SevenSegmentDisplay.write_buffer_length _ _, rfl⟩
